import Mathlib

/-!
Verification of the `sndrizpipe` stage orchestrator (`runpipe` in
`__main__.py`).  The definitions below are a shallow embedding of the
parts of `runpipe` relevant to the stated claims: parameter validation,
the `doall` convenience flag, the reference-image re-run policy, the
reference-visit selection heuristic, the per-unit skip/clobber logic of
the two drizzle-combination stages, the combine-type selection, the
two-IR-exposure hot-pixel special case, the camera-inference fallback,
the Register-stage missing-input path, and the Difference-stage
missing-artifact policy.  External collaborators (astrodrizzle,
tweakreg, pixel arithmetic) are modelled only through the facts the
orchestrator depends on: which calls are issued, with which options, and
that a combination call produces its canonical science artifact.
-/

namespace Sndrizpipe

/-- One input exposure, with exactly the attributes `runpipe` reads in the
code fragments under verification: `filename`, `rootname`, `filter`,
`epoch`, `pidvisit`, and the optional `camera` attribute (present only
when the exposure object carries `camera` in its `__dict__`). -/
structure Exposure where
  filename : String
  rootname : String
  filter : String
  epoch : Int
  pidvisit : String
  cameraAttr : Option String
deriving DecidableEq

/-- Python truthiness of an optional integer parameter: `None` and `0` are
falsy, any other value is truthy. -/
def truthyOptInt : Option Int → Bool
  | none => false
  | some n => n != 0

/-- Prefix test on strings, via their character lists. -/
def strStarts (s pre : String) : Bool := pre.toList.isPrefixOf s.toList

/-- Suffix test on strings, via their character lists. -/
def strEnds (s suf : String) : Bool := suf.toList.isSuffixOf s.toList

/-- Lower-casing of a string, via its character list. -/
def strLower (s : String) : String := String.mk (s.toList.map Char.toLower)

/-- The first `n` characters of a string (Python `s[:n]`). -/
def strTake (s : String) (n : Nat) : String := String.mk (s.toList.take n)

/-- Lexicographic (code-point) comparison of character lists. -/
def charListLt : List Char → List Char → Bool
  | [], [] => false
  | [], _ :: _ => true
  | _ :: _, [] => false
  | a :: as, b :: bs =>
    if a < b then true else if b < a then false else charListLt as bs

/-- Lexicographic (code-point) comparison of strings, the order used by
`np.unique` on visit-id strings. -/
def strLt (s t : String) : Bool := charListLt s.toList t.toList

/-- Lines 102-107: normalisation of the `onlyfilters` parameter.  When the
list is non-empty each entry is truncated to five characters and
lower-cased; when the filter-combination method is `'driz'`, the Python
statement `onlyfilters += combinefilterdict['name']` extends the list
with the characters of the combination name (list `+=` over a string
iterates characters). -/
def processOnlyfilters (onlyfilters : List String) (method : Option String)
    (cname : String) : List String :=
  if onlyfilters.isEmpty then onlyfilters
  else
    let lowered := onlyfilters.map (fun filt => strLower (strTake filt 5))
    if method = some "driz" then
      lowered ++ cname.toList.map (fun c => String.singleton c)
    else lowered

/-- The four parameter-validation errors raised at the top of `runpipe`
(lines 88-121), in source order. -/
inductive ConfigError
  | nbrightBelowMinobj
  | tooFewForRscale
  | tempfiltersNeedSingleFilter
  | singlestarNeedsRadec
deriving DecidableEq

/-- Embedded parameters of `runpipe` that feed the validation block.  The
numeric values of `ra`/`dec` are never inspected by the validation (only
their `None`-ness is), so their carrier type is irrelevant here. -/
structure Params where
  nbright : Option Int
  minobj : Int
  shiftonly : Bool
  tempfilters : Option String
  onlyfilters : List String
  combinemethod : Option String
  combinename : String
  singlestar : Bool
  ra : Option Int
  dec : Option Int
deriving DecidableEq

/-- Lines 88-121 of `runpipe`: the four incompatible-parameter checks, in
source order.  `nbright and minobj and (nbright < minobj - 1)` raises the
first error; `fitgeometry == 'rscale' and ((nbright and nbright < 3) or
minobj < 3)` the second (where `fitgeometry` is `'shift'` iff `shiftonly`);
`tempfilters is not None and len(onlyfilters) != 1` (after the
normalisation of `onlyfilters`) the third; and `singlestar and (ra is None
or dec is None)` the fourth. -/
def checkParams (p : Params) : Option ConfigError :=
  if truthyOptInt p.nbright = true ∧ p.minobj ≠ 0
      ∧ p.nbright.getD 0 < p.minobj - 1 then
    some ConfigError.nbrightBelowMinobj
  else if (if p.shiftonly then "shift" else "rscale") = "rscale"
      ∧ ((truthyOptInt p.nbright = true ∧ p.nbright.getD 0 < 3)
          ∨ p.minobj < 3) then
    some ConfigError.tooFewForRscale
  else if p.tempfilters.isSome = true
      ∧ (processOnlyfilters p.onlyfilters p.combinemethod
          p.combinename).length ≠ 1 then
    some ConfigError.tempfiltersNeedSingleFilter
  else if p.singlestar = true ∧ (p.ra.isNone = true ∨ p.dec.isNone = true) then
    some ConfigError.singlestarNeedsRadec
  else none

/-- The per-stage enabling flags of `runpipe`. -/
structure StageFlags where
  dosetup : Bool
  dorefim : Bool
  dodriz1 : Bool
  doreg : Bool
  dodriz2 : Bool
  dodiff : Bool
  dostack : Bool
deriving DecidableEq

/-- Lines 127-135: the `doall` convenience flag turns on the six stages
setup, refim, driz1, reg, driz2 and diff; `dostack` is deliberately left
untouched (see the source comment). -/
def applyDoall (doall : Bool) (f : StageFlags) : StageFlags :=
  if doall then
    { f with dosetup := true, dorefim := true, dodriz1 := true,
             doreg := true, dodriz2 := true, dodiff := true }
  else f

/-- Tags for the seven named pipeline stages. -/
inductive StageTag
  | setup | refim | driz1 | reg | driz2 | diff | stack
deriving DecidableEq

/-- The stages executed by `runpipe` for a given flag assignment, in the
fixed source order. -/
def enabledStages (f : StageFlags) : List StageTag :=
  (if f.dosetup then [StageTag.setup] else [])
    ++ (if f.dorefim then [StageTag.refim] else [])
    ++ (if f.dodriz1 then [StageTag.driz1] else [])
    ++ (if f.doreg then [StageTag.reg] else [])
    ++ (if f.dodriz2 then [StageTag.driz2] else [])
    ++ (if f.dodiff then [StageTag.diff] else [])
    ++ (if f.dostack then [StageTag.stack] else [])

/-- Top-level shape of `runpipe`: the validation block (lines 88-121) runs
first and raises before the `doall` expansion (line 127) and before any
stage body; only when validation passes does the stage sequence run. -/
def runpipeModel (p : Params) (f : StageFlags) (doall : Bool) :
    Except ConfigError (List StageTag) :=
  match checkParams p with
  | some e => Except.error e
  | none => Except.ok (enabledStages (applyDoall doall f))

/-- Outcome of the Build-Reference (refim) stage decision, lines 247-258. -/
inductive RefimAction
  | skippedExisting
  | removedAndRebuilt
  | builtFresh
deriving DecidableEq

/-- Lines 248-258 of the refim stage.  `refimclobber = clobber and
(reffilter or refepoch or refvisit)`; an existing ref image is removed
only under `refimclobber`; afterwards an existing ref image causes a
skip, otherwise the reference frame is built.  The three override
arguments are the Python truthiness of `reffilter`, `refepoch` and
`refvisit`. -/
def refimStep (refimExists clobber reffilterT refepochT refvisitT : Bool) :
    RefimAction :=
  let refimclobber := clobber && (reffilterT || refepochT || refvisitT)
  let existsAfterRemove := refimExists && !refimclobber
  if existsAfterRemove then RefimAction.skippedExisting
  else if refimExists then RefimAction.removedAndRebuilt
  else RefimAction.builtFresh

/-- Insert a string into a sorted duplicate-free list, keeping it sorted
and duplicate-free. -/
def insertUniqueSorted (s : String) : List String → List String
  | [] => [s]
  | x :: xs =>
    if s = x then x :: xs
    else if strLt s x then s :: x :: xs
    else x :: insertUniqueSorted s xs

/-- `np.unique`: the sorted list of distinct values. -/
def uniqueSorted (l : List String) : List String :=
  l.foldr insertUniqueSorted []

/-- Lines 276-278: the `pidvisit` values of all exposures of
`explist_all` matching the resolved reference epoch and filter. -/
def pidvisitCandidates (explist_all : List Exposure) (refepoch : Int)
    (reffilter : String) : List String :=
  (explist_all.filter
      (fun e => e.epoch == refepoch && e.filter == reffilter)).map
    (fun e => e.pidvisit)

/-- Line 279: `unique_visits = np.unique(pidvisits)`. -/
def refvisitUniq (l : List Exposure) (ep : Int) (f : String) : List String :=
  uniqueSorted (pidvisitCandidates l ep f)

/-- Line 287-289: one entry of `Nexp_per_visit`, the number of candidate
exposures carrying the given visit id. -/
def visitCount (l : List Exposure) (ep : Int) (f : String) (v : String) :
    Nat :=
  ((pidvisitCandidates l ep f).filter (fun p => p == v)).length

/-- `np.argmax` over a list of naturals: the index of the first occurrence
of the maximum (the accumulator is replaced only on a strictly greater
value). -/
def argmaxIdxAux : List Nat → Nat → Nat → Nat → Nat
  | [], _, best, _ => best
  | x :: xs, i, best, bestv =>
    if bestv < x then argmaxIdxAux xs (i + 1) i x
    else argmaxIdxAux xs (i + 1) best bestv

/-- `np.argmax` of a non-empty list (`argmaxIdx [] = 0` by convention). -/
def argmaxIdx : List Nat → Nat
  | [] => 0
  | x :: xs => argmaxIdxAux xs 1 0 x

/-- Lines 274-291: reference-visit selection.  A truthy `refvisit`
parameter short-circuits the selection; otherwise the unique visit ids of
the exposures matching (refepoch, reffilter) decide: one candidate is
taken verbatim, zero candidates raise, several candidates are resolved by
`np.argmax` over the per-visit exposure counts. -/
def selectRefvisit (refvisit : String) (l : List Exposure) (ep : Int)
    (f : String) : Except String String :=
  if refvisit != "" then Except.ok refvisit
  else
    let uniq := refvisitUniq l ep f
    if uniq.length = 1 then Except.ok (uniq.getD 0 "")
    else if uniq.length < 1 then
      Except.error "No visits satisfy the refimage requirements"
    else
      Except.ok (uniq.getD (argmaxIdx (uniq.map (visitCount l ep f))) "")

/-- Lines 422-432: camera inference for the first exposure of a Combine-1
group.  The `camera` attribute wins when present; otherwise a rootname
beginning with `'i'` selects a WFC3 channel (UVIS for `flc` files, IR for
filters beginning `f1`, UVIS otherwise) and a rootname beginning with
`'j'` selects ACS-WFC.  No branch covers the remaining case: the result
is `none`, i.e. the Python `camera` variable is left unassigned. -/
def inferCamera (e : Exposure) : Option String :=
  match e.cameraAttr with
  | some c => some c
  | none =>
    if strStarts e.rootname "i" then
      if strEnds e.filename "flc.fits" then some "WFC3-UVIS"
      else if strStarts (strLower e.filter) "f1" then some "WFC3-IR"
      else some "WFC3-UVIS"
    else if strStarts e.rootname "j" then some "ACS-WFC"
    else none

/-- Result of evaluating line 433, `if drizcr and len(fltlistFEV) == 2 and
camera == 'WFC3-IR'`: either the guard evaluates (with the resulting
hot-pixel decision), or reading `camera` raises a `NameError` because no
branch of lines 422-432 ever assigned it. -/
inductive CRCheck
  | ran (hotpix : Bool)
  | nameError
deriving DecidableEq

/-- Lines 422-435 for one Combine-1 group: the camera-inference block
updates the (function-scoped, loop-persistent) `camera` variable when a
branch fires, then the two-exposure hot-pixel guard runs.  Python
short-circuits: `camera` is read only when `drizcr` is truthy and the
group has exactly two exposures. -/
def driz1CRStep (camState : Option String) (e0 : Exposure) (nflt : Nat)
    (drizcr : Int) : Option String × CRCheck :=
  let camState2 :=
    match inferCamera e0 with
    | some c => some c
    | none => camState
  if drizcr ≠ 0 ∧ nflt = 2 then
    match camState2 with
    | none => (camState2, CRCheck.nameError)
    | some c => (camState2, CRCheck.ran (c == "WFC3-IR"))
  else (camState2, CRCheck.ran false)

/-- The Combine-1 camera/hot-pixel fragment run over a whole stage:
groups are processed in order, each given by its first exposure and its
exposure count, threading the `camera` variable; a `NameError` aborts the
stage. -/
def driz1CRRunAux (dc : Int) :
    Option String → List (Exposure × Nat) → Except String (List Bool)
  | _, [] => Except.ok []
  | cam, g :: rest =>
    let s := driz1CRStep cam g.1 g.2 dc
    match s.2 with
    | CRCheck.ran h => (driz1CRRunAux dc s.1 rest).map (fun l => h :: l)
    | CRCheck.nameError =>
      Except.error "NameError: camera referenced before assignment"

/-- The Combine-1 camera/hot-pixel fragment for a list of groups, starting
with the `camera` variable unassigned. -/
def driz1CRRun (dc : Int) (groups : List (Exposure × Nat)) :
    Except String (List Bool) :=
  driz1CRRunAux dc none groups

/-- Observable outcome of one Combine-1 (driz1) group unit,
lines 395-435. -/
structure Driz1Outcome where
  removed : Bool
  skipped : Bool
  drizzleCalled : Bool
  crCheck : Option CRCheck
  cameraAfter : Option String
  existsAfter : Bool
deriving DecidableEq

/-- Lines 395-435 for one Combine-1 group unit: an existing `outsciFEV`
is removed under clobber; an artifact still existing afterwards skips the
unit (no drizzle call, `camera` untouched); otherwise `firstDrizzle` is
invoked (producing the science artifact) and the camera/hot-pixel
fragment runs. -/
def driz1Unit (camState : Option String) (exists0 clobber : Bool)
    (e0 : Exposure) (nflt : Nat) (dc : Int) : Driz1Outcome :=
  let removed := exists0 && clobber
  let existsAfterRemove := exists0 && !clobber
  if existsAfterRemove then
    { removed := removed, skipped := true, drizzleCalled := false,
      crCheck := none, cameraAfter := camState,
      existsAfter := existsAfterRemove }
  else
    let s := driz1CRStep camState e0 nflt dc
    { removed := removed, skipped := false, drizzleCalled := true,
      crCheck := some s.2, cameraAfter := s.1, existsAfter := true }

/-- Lines 543-551: the Combine-2 combine-type selection.  The default is
`'imedian'`; it is replaced by `'iminmed'` exactly when the group's
camera is not WFC3-IR, single-star mode is off, and the group has fewer
than 7 exposures. -/
def driz2CombineType (camera0 : String) (singlestar : Bool) (nflt : Nat) :
    String :=
  if camera0 ≠ "WFC3-IR" ∧ singlestar = false ∧ nflt < 7 then "iminmed"
  else "imedian"

/-- Observable outcome of one Combine-2 (driz2) group unit,
lines 519-575: whether the stale artifact was removed, whether the unit
skipped, the list of `secondDrizzle` calls issued as (combine type,
cosmic-ray-rejection flag) pairs, whether the hot-pixel cleanup ran, and
whether the science artifact exists afterwards. -/
structure Driz2Outcome where
  removed : Bool
  skipped : Bool
  calls : List (String × Bool)
  hotpixRun : Bool
  existsAfter : Bool
deriving DecidableEq

/-- Lines 534-575 for one Combine-2 group unit: clobber handling as in
Combine-1; a surviving artifact skips the unit; otherwise `secondDrizzle`
runs with the selected combine type and `driz_cr=(drizcr > 1)`, and when
`drizcr > 1`, the group has exactly two exposures and the camera is
WFC3-IR, `hotpixPostargClean` runs and `secondDrizzle` is re-invoked with
`driz_cr=False`. -/
def driz2Unit (exists0 clobber : Bool) (camera0 : String)
    (singlestar : Bool) (nflt : Nat) (dc : Int) : Driz2Outcome :=
  let removed := exists0 && clobber
  let existsAfterRemove := exists0 && !clobber
  if existsAfterRemove then
    { removed := removed, skipped := true, calls := [], hotpixRun := false,
      existsAfter := existsAfterRemove }
  else
    let ct := driz2CombineType camera0 singlestar nflt
    if dc > 1 ∧ nflt = 2 ∧ camera0 = "WFC3-IR" then
      { removed := removed, skipped := false,
        calls := [(ct, decide (dc > 1)), (ct, false)], hotpixRun := true,
        existsAfter := true }
    else
      { removed := removed, skipped := false,
        calls := [(ct, decide (dc > 1))], hotpixRun := false,
        existsAfter := true }

/-- Events of the Register-stage per-unit preamble, lines 477-479. -/
inductive RegUnitEvent
  | runtimeErrorConstructedNotRaised
  | getvalRead (fileExists : Bool)
deriving DecidableEq

/-- Lines 477-479 of the Register stage: when `outsciFEV` does not exist
the code evaluates `RuntimeError("Missing %s." % outsciFEV)` as a bare
expression -- the exception object is constructed but never raised -- and
execution falls through to `pyfits.getval(outsciFEV, 'WCSNAME')` on the
absent file. -/
def regUnitPreamble (outsciExists : Bool) : List RegUnitEvent :=
  (if outsciExists then []
   else [RegUnitEvent.runtimeErrorConstructedNotRaised])
    ++ [RegUnitEvent.getvalRead outsciExists]

/-- Outcome of the Difference stage for one (filter, epoch) pair. -/
inductive DiffPairOutcome
  | emptyGroup
  | skipNoRegsci
  | skipReported
  | created
deriving DecidableEq

/-- Lines 600-664 for one Difference-stage (filter, epoch) pair, epoch
distinct from the template epoch: an empty exposure group is skipped
silently (line 600); a missing registered Combine-2 science artifact is
skipped silently with no printed report (lines 608-610); a missing
template (plain or synthetic, after any synthetic build) is skipped with
a printed report of the missing files (lines 659-664); otherwise the
difference products are created.  No branch raises. -/
def diffPairStep (nexp : Nat) (regsciExists tempsciExists : Bool) :
    DiffPairOutcome :=
  if nexp = 0 then DiffPairOutcome.emptyGroup
  else if !regsciExists then DiffPairOutcome.skipNoRegsci
  else if !tempsciExists then DiffPairOutcome.skipReported
  else DiffPairOutcome.created

/-- The Difference stage over its full (filter, epoch) fan-out: every pair
is processed, each yielding its own outcome, with no fatal error. -/
def diffStage (pairs : List (Nat × Bool × Bool)) : List DiffPairOutcome :=
  pairs.map (fun x => diffPairStep x.1 x.2.1 x.2.2)

/-- A concrete exposure whose rootname starts with neither `'i'` nor `'j'`
and which carries no `camera` attribute, so that no branch of the camera
inference fires. -/
def badCamExp : Exposure :=
  { filename := "u40001aaq_flt.fits", rootname := "u40001aaq",
    filter := "f160w", epoch := 1, pidvisit := "12099.A1",
    cameraAttr := none }

/-- A concrete WFC3-IR exposure (camera attribute present). -/
def irExp : Exposure :=
  { filename := "ia01a1abq_flt.fits", rootname := "ia01a1abq",
    filter := "f160w", epoch := 0, pidvisit := "12099.A1",
    cameraAttr := some "WFC3-IR" }

/-- Demo exposure for reference-visit selection, visit `12099.A1`. -/
def demoExpA1 : Exposure :=
  { filename := "ia01a1aaq_flt.fits", rootname := "ia01a1aaq",
    filter := "f160w", epoch := 0, pidvisit := "12099.A1",
    cameraAttr := some "WFC3-IR" }

/-- Demo exposure for reference-visit selection, visit `12099.A2`. -/
def demoExpA2a : Exposure :=
  { filename := "ia01a2aaq_flt.fits", rootname := "ia01a2aaq",
    filter := "f160w", epoch := 0, pidvisit := "12099.A2",
    cameraAttr := some "WFC3-IR" }

/-- Second demo exposure in visit `12099.A2`. -/
def demoExpA2b : Exposure :=
  { filename := "ia01a2abq_flt.fits", rootname := "ia01a2abq",
    filter := "f160w", epoch := 0, pidvisit := "12099.A2",
    cameraAttr := some "WFC3-IR" }

/-- Demo exposure set with two visits in (epoch 0, f160w): one exposure in
visit `12099.A1` and two in visit `12099.A2`. -/
def demoExplist : List Exposure := [demoExpA1, demoExpA2a, demoExpA2b]

/-- Parameter set triggering the single-star-without-coordinates check. -/
def demoBadParams : Params :=
  { nbright := none, minobj := 10, shiftonly := false, tempfilters := none,
    onlyfilters := [], combinemethod := none, combinename := "",
    singlestar := true, ra := none, dec := none }

/-- All stage flags off. -/
def noFlags : StageFlags :=
  { dosetup := false, dorefim := false, dodriz1 := false, doreg := false,
    dodriz2 := false, dodiff := false, dostack := false }

/-! ## Shared lemmas -/

/-- `getD` through a `map`, for in-range indices. -/
theorem getD_map_nat (f : String → Nat) :
    ∀ (l : List String) (j : Nat), j < l.length →
      (l.map f).getD j 0 = f (l.getD j "")
  | [], j, h => absurd h (by simp)
  | _ :: _, 0, _ => rfl
  | _ :: xs, j + 1, h => getD_map_nat f xs j (by simpa using h)

/-- Invariant of the `np.argmax` accumulator loop: viewing `xs` as the
suffix of the scanned sequence `v` starting at position `i`, with `best`
the first position of the running maximum, the final result is the first
position of the overall maximum. -/
theorem argmaxIdxAux_spec (v : Nat → Nat) :
    ∀ (xs : List Nat) (i best : Nat),
      (∀ k, k < xs.length → xs.getD k 0 = v (i + k)) →
      best < i →
      (∀ j, j < i → v j ≤ v best) →
      (∀ j, j < best → v j < v best) →
      argmaxIdxAux xs i best (v best) < i + xs.length ∧
      (∀ j, j < i + xs.length → v j ≤ v (argmaxIdxAux xs i best (v best))) ∧
      (∀ j, j < argmaxIdxAux xs i best (v best) →
        v j < v (argmaxIdxAux xs i best (v best))) := by
  intro xs
  induction xs with
  | nil =>
    intro i best _ hbi hle hlt
    refine ⟨by simpa using Nat.lt_of_lt_of_le hbi (Nat.le_refl i), ?_, hlt⟩
    simpa using hle
  | cons x xs ih =>
    intro i best hsuf hbi hle hlt
    have hx : x = v i := by
      have := hsuf 0 (by simp)
      simpa using this
    have hsuf2 : ∀ k, k < xs.length → xs.getD k 0 = v (i + 1 + k) := by
      intro k hk
      have := hsuf (k + 1) (by simpa using Nat.succ_lt_succ hk)
      have harith : i + (k + 1) = i + 1 + k := by omega
      simpa [harith] using this
    show argmaxIdxAux (x :: xs) i best (v best) < i + (x :: xs).length ∧ _
    rw [argmaxIdxAux]
    by_cases hcmp : v best < x
    · have hcmp2 : v best < v i := hx ▸ hcmp
      rw [if_pos hcmp, hx]
      have h2 := ih (i + 1) i hsuf2 (Nat.lt_succ_self i)
        (fun j hj => by
          rcases Nat.lt_succ_iff_lt_or_eq.mp hj with hj2 | hj2
          · exact Nat.le_of_lt (Nat.lt_of_le_of_lt (hle j hj2) hcmp2)
          · exact hj2 ▸ Nat.le_refl (v i))
        (fun j hj => Nat.lt_of_le_of_lt (hle j hj) hcmp2)
      refine ⟨?_, ?_, h2.2.2⟩
      · have := h2.1
        simpa [Nat.add_comm, Nat.add_left_comm, Nat.add_assoc] using this
      · intro j hj
        apply h2.2.1
        simp only [List.length_cons] at hj
        omega
    · rw [if_neg hcmp]
      have hxle : v i ≤ v best := by
        have := Nat.not_lt.mp hcmp
        exact hx ▸ this
      have h2 := ih (i + 1) best hsuf2 (Nat.lt_succ_of_lt hbi)
        (fun j hj => by
          rcases Nat.lt_succ_iff_lt_or_eq.mp hj with hj2 | hj2
          · exact hle j hj2
          · exact hj2 ▸ hxle)
        hlt
      refine ⟨?_, ?_, h2.2.2⟩
      · have := h2.1
        simp only [List.length_cons]
        omega
      · intro j hj
        apply h2.2.1
        simp only [List.length_cons] at hj
        omega

/-- `np.argmax` of a non-empty list returns the index of the first
occurrence of the maximum value. -/
theorem argmaxIdx_spec (l : List Nat) (hne : l ≠ []) :
    argmaxIdx l < l.length ∧
    (∀ j, j < l.length → l.getD j 0 ≤ l.getD (argmaxIdx l) 0) ∧
    (∀ j, j < argmaxIdx l → l.getD j 0 < l.getD (argmaxIdx l) 0) := by
  match l, hne with
  | x :: xs, _ =>
    have hx0 : (x :: xs).getD 0 0 = x := rfl
    have h := argmaxIdxAux_spec (fun j => (x :: xs).getD j 0) xs 1 0
      (fun k hk => by
        have : (x :: xs).getD (1 + k) 0 = xs.getD k 0 := by
          have harith : 1 + k = k + 1 := by omega
          rw [harith]
          rfl
        exact this.symm)
      (Nat.zero_lt_one)
      (fun j hj => by
        have : j = 0 := by omega
        simp [this])
      (fun j hj => absurd hj (Nat.not_lt_zero j))
    have hdef : argmaxIdx (x :: xs) = argmaxIdxAux xs 1 0 x := rfl
    have hlen : (x :: xs).length = 1 + xs.length := by
      simp [Nat.add_comm]
    constructor
    · rw [hdef, hlen]
      simpa using h.1
    constructor
    · intro j hj
      rw [hdef]
      exact h.2.1 j (by rw [hlen] at hj; simpa using hj)
    · intro j hj
      rw [hdef]
      exact h.2.2 j (by rw [hdef] at hj; simpa using hj)

/-! ## Claim theorems -/

/-- C9: the `doall` convenience flag enables exactly the Setup,
Build-Reference, Combine-1, Register, Combine-2 and Difference stages:
each of those six flags becomes the disjunction of its prior value with
`doall` (so no individually enabled stage is ever disabled), while
`dostack` is passed through unchanged (the multi-epoch Stack stage is
never enabled by `doall`). -/
theorem doall_enables_all_but_stack (d : Bool) (f : StageFlags) :
    (applyDoall d f).dosetup = (f.dosetup || d) ∧
    (applyDoall d f).dorefim = (f.dorefim || d) ∧
    (applyDoall d f).dodriz1 = (f.dodriz1 || d) ∧
    (applyDoall d f).doreg = (f.doreg || d) ∧
    (applyDoall d f).dodriz2 = (f.dodriz2 || d) ∧
    (applyDoall d f).dodiff = (f.dodiff || d) ∧
    (applyDoall d f).dostack = f.dostack := by
  cases d <;> simp [applyDoall]

/-- C2 (code-bug evidence): in the Register stage, when the Combine-1
output science artifact `outsciFEV` is missing, line 478 merely
constructs `RuntimeError("Missing %s.")` as a bare expression without
raising it, and the unit proceeds to read the absent file with
`pyfits.getval` instead of failing with a missing-artifact error. -/
theorem register_missing_input_not_raised :
    regUnitPreamble false
      = [RegUnitEvent.runtimeErrorConstructedNotRaised,
         RegUnitEvent.getvalRead false] := by decide

/-- C4 counterexample: with the reference image present, the `refepoch`
override supplied, and clobber off, the Build-Reference stage skips
instead of removing and rebuilding, refuting the claim that supplying an
override alone forces a rebuild. -/
theorem refim_override_without_clobber_cex :
    refimStep true false false true false = RefimAction.skippedExisting ∧
    RefimAction.skippedExisting ≠ RefimAction.removedAndRebuilt := by decide

/-- C4 (amended): an existing Reference Frame artifact is removed and the
reference frame rebuilt exactly when clobber is enabled AND at least one
of the `reffilter`/`refepoch`/`refvisit` overrides is supplied (truthy);
otherwise an existing artifact makes the stage skip selection and
combination entirely, and an absent artifact is built fresh. -/
theorem refim_rerun_policy (e c f ep v : Bool) :
    (refimStep e c f ep v = RefimAction.removedAndRebuilt ↔
      (e = true ∧ c = true ∧ (f = true ∨ ep = true ∨ v = true))) ∧
    (refimStep e c f ep v = RefimAction.skippedExisting ↔
      (e = true ∧ ¬(c = true ∧ (f = true ∨ ep = true ∨ v = true)))) ∧
    (refimStep e c f ep v = RefimAction.builtFresh ↔ e = false) := by
  cases e <;> cases c <;> cases f <;> cases ep <;> cases v <;> decide

/-- C7 counterexample: a Difference-stage pair whose registered Combine-2
artifact is missing (template present, non-empty group) is skipped
silently at lines 608-610, with no report of the missing files, refuting
the claim that such a skip reports which required files were missing. -/
theorem diff_missing_regsci_silent_cex :
    diffPairStep 3 false true = DiffPairOutcome.skipNoRegsci ∧
    DiffPairOutcome.skipNoRegsci ≠ DiffPairOutcome.skipReported := by decide

/-- C7 (amended): for a non-empty (filter, epoch) pair with epoch distinct
from the template epoch, a missing registered Combine-2 artifact skips
the pair silently (no report); a present Combine-2 artifact with a
missing template (plain or synthetic) skips the pair with a printed
report of the missing files; the difference is created exactly when both
exist; and the stage maps every pair to an outcome with no fatal error,
so the remaining pairs are always still processed. -/
theorem diff_missing_artifact_policy (n : Nat) (t r : Bool)
    (p1 p2 : List (Nat × Bool × Bool)) (x : Nat × Bool × Bool) :
    (n ≠ 0 → diffPairStep n false t = DiffPairOutcome.skipNoRegsci) ∧
    (n ≠ 0 → diffPairStep n true false = DiffPairOutcome.skipReported) ∧
    (diffPairStep n r t = DiffPairOutcome.created ↔
      (n ≠ 0 ∧ r = true ∧ t = true)) ∧
    diffStage (p1 ++ x :: p2)
      = diffStage p1 ++ diffPairStep x.1 x.2.1 x.2.2 :: diffStage p2 := by
  refine ⟨?_, ?_, ?_, ?_⟩
  · intro hn
    simp [diffPairStep, hn]
  · intro hn
    simp [diffPairStep, hn]
  · by_cases hn : n = 0 <;> cases r <;> cases t <;> simp [diffPairStep, hn]
  · simp [diffStage]

/-- C7 witness: the amended policy applied to a concrete pair with three
exposures. -/
theorem diff_missing_artifact_policy_witness :
    diffPairStep 3 false true = DiffPairOutcome.skipNoRegsci ∧
    diffPairStep 3 true false = DiffPairOutcome.skipReported :=
  ⟨(diff_missing_artifact_policy 3 true true [] [] (0, true, true)).1
      (by decide),
   (diff_missing_artifact_policy 3 true true [] [] (0, true, true)).2.1
      (by decide)⟩

/-- C1 counterexample: a non-IR (ACS-WFC) FEgroup of exactly 7 exposures
with single-bright-source mode off satisfies the claim's switch
condition (camera not WFC3-IR, no single star, 7 or more exposures), yet
the combine type passed to `secondDrizzle` is `'imedian'`, not
`'iminmed'`; conversely with 6 exposures the code already uses
`'iminmed'`. -/
theorem combine_type_switch_cex :
    driz2Unit false false "ACS-WFC" false 7 1
      = { removed := false, skipped := false, calls := [("imedian", false)],
          hotpixRun := false, existsAfter := true } ∧
    driz2CombineType "ACS-WFC" false 7 = "imedian" ∧
    driz2CombineType "ACS-WFC" false 6 = "iminmed" := by decide

/-- C1 (amended): every `secondDrizzle` call of a Combine-2 group unit is
passed the selected combine type, and that type is the flux-preserving
`'iminmed'` exactly when the camera of the group's first exposure is not
WFC3-IR, single-bright-source mode is off, and the group has FEWER than
7 exposures; in every other case it is the conservative rejection-
tolerant `'imedian'`. -/
theorem combine_type_selection (cam : String) (ss : Bool) (n : Nat)
    (dc : Int) (ex0 cl : Bool) :
    (driz2Unit ex0 cl cam ss n dc).calls.all
        (fun c => c.1 == driz2CombineType cam ss n) = true ∧
    (driz2CombineType cam ss n = "iminmed" ↔
      (cam ≠ "WFC3-IR" ∧ ss = false ∧ n < 7)) ∧
    (driz2CombineType cam ss n = "imedian" ↔
      ¬(cam ≠ "WFC3-IR" ∧ ss = false ∧ n < 7)) := by
  have hne : ("iminmed" : String) ≠ "imedian" := by decide
  refine ⟨?_, ?_, ?_⟩
  · unfold driz2Unit
    by_cases hex : (ex0 && !cl) = true
    · simp [hex]
    · by_cases hc : dc > 1 ∧ n = 2 ∧ cam = "WFC3-IR" <;> simp [hex, hc]
  · by_cases h : cam ≠ "WFC3-IR" ∧ ss = false ∧ n < 7 <;>
      simp [driz2CombineType, h, hne, hne.symm]
  · by_cases h : cam ≠ "WFC3-IR" ∧ ss = false ∧ n < 7 <;>
      simp [driz2CombineType, h, hne, hne.symm]

/-- C3: skip/clobber behaviour of the Combine-1 and Combine-2 group
units.  With the canonical science artifact present and clobber off,
both units skip without invoking the external combiner and without any
filesystem change; after any run with clobber off the artifact exists,
so an immediate second run with identical parameters skips with no
removal and no combiner call (idempotence); with clobber on, a present
artifact is removed before the combiner is re-invoked. -/
theorem combine_skip_clobber (camState : Option String) (e0 : Exposure)
    (cam0 : String) (ss : Bool) (n : Nat) (dc : Int) (ex0 : Bool) :
    ((driz1Unit camState true false e0 n dc).skipped = true ∧
     (driz1Unit camState true false e0 n dc).drizzleCalled = false ∧
     (driz1Unit camState true false e0 n dc).removed = false ∧
     (driz1Unit camState true false e0 n dc).existsAfter = true) ∧
    ((driz2Unit true false cam0 ss n dc).skipped = true ∧
     (driz2Unit true false cam0 ss n dc).calls = [] ∧
     (driz2Unit true false cam0 ss n dc).removed = false ∧
     (driz2Unit true false cam0 ss n dc).existsAfter = true) ∧
    ((driz1Unit camState ex0 false e0 n dc).existsAfter = true ∧
     (driz2Unit ex0 false cam0 ss n dc).existsAfter = true) ∧
    ((driz1Unit camState (driz1Unit camState ex0 false e0 n dc).existsAfter
        false e0 n dc).skipped = true ∧
     (driz1Unit camState (driz1Unit camState ex0 false e0 n dc).existsAfter
        false e0 n dc).drizzleCalled = false ∧
     (driz1Unit camState (driz1Unit camState ex0 false e0 n dc).existsAfter
        false e0 n dc).removed = false ∧
     (driz2Unit (driz2Unit ex0 false cam0 ss n dc).existsAfter false cam0
        ss n dc).skipped = true ∧
     (driz2Unit (driz2Unit ex0 false cam0 ss n dc).existsAfter false cam0
        ss n dc).calls = [] ∧
     (driz2Unit (driz2Unit ex0 false cam0 ss n dc).existsAfter false cam0
        ss n dc).removed = false) ∧
    ((driz1Unit camState true true e0 n dc).removed = true ∧
     (driz1Unit camState true true e0 n dc).drizzleCalled = true ∧
     (driz2Unit true true cam0 ss n dc).removed = true ∧
     (driz2Unit true true cam0 ss n dc).skipped = false) := by
  cases ex0 <;>
    simp [driz1Unit, driz2Unit] <;>
    split <;> simp

/-- C6: whenever the parameters are mutually incompatible in any of the
four claimed ways -- `nbright` and `minobj` both given (truthy) with
`nbright < minobj - 1`; fit geometry rotation+scale (`shiftonly` off)
while a given `nbright` is below 3 or `minobj` is below 3; `tempfilters`
set while the number of filters selected for processing is not exactly
one; or single-bright-source mode without both RA and Dec -- `runpipe`
raises a configuration error, and no stage executes (the stage list is
produced only on the success path of `runpipeModel`). -/
theorem config_errors_precede_stages (p : Params) (f : StageFlags)
    (doall : Bool)
    (h : (truthyOptInt p.nbright = true ∧ p.minobj ≠ 0
            ∧ p.nbright.getD 0 < p.minobj - 1)
       ∨ (p.shiftonly = false
            ∧ ((truthyOptInt p.nbright = true ∧ p.nbright.getD 0 < 3)
                ∨ p.minobj < 3))
       ∨ (p.tempfilters.isSome = true
            ∧ (processOnlyfilters p.onlyfilters p.combinemethod
                p.combinename).length ≠ 1)
       ∨ (p.singlestar = true
            ∧ (p.ra.isNone = true ∨ p.dec.isNone = true))) :
    ∃ e, runpipeModel p f doall = Except.error e := by
  have hs : ∃ e, checkParams p = some e := by
    by_cases h1 : truthyOptInt p.nbright = true ∧ p.minobj ≠ 0
        ∧ p.nbright.getD 0 < p.minobj - 1
    · refine ⟨ConfigError.nbrightBelowMinobj, ?_⟩
      unfold checkParams
      rw [if_pos h1]
    by_cases h2 : (if p.shiftonly then "shift" else "rscale") = "rscale"
        ∧ ((truthyOptInt p.nbright = true ∧ p.nbright.getD 0 < 3)
            ∨ p.minobj < 3)
    · refine ⟨ConfigError.tooFewForRscale, ?_⟩
      unfold checkParams
      rw [if_neg h1, if_pos h2]
    by_cases h3 : p.tempfilters.isSome = true
        ∧ (processOnlyfilters p.onlyfilters p.combinemethod
            p.combinename).length ≠ 1
    · refine ⟨ConfigError.tempfiltersNeedSingleFilter, ?_⟩
      unfold checkParams
      rw [if_neg h1, if_neg h2, if_pos h3]
    by_cases h4 : p.singlestar = true
        ∧ (p.ra.isNone = true ∨ p.dec.isNone = true)
    · refine ⟨ConfigError.singlestarNeedsRadec, ?_⟩
      unfold checkParams
      rw [if_neg h1, if_neg h2, if_neg h3, if_pos h4]
    exfalso
    rcases h with hA | hB | hC | hD
    · exact h1 hA
    · exact h2 ⟨by simp [hB.1], hB.2⟩
    · exact h3 hC
    · exact h4 hD
  obtain ⟨e, he⟩ := hs
  exact ⟨e, by simp [runpipeModel, he]⟩

/-- C6 witness: the concrete parameter set requesting single-bright-source
mode without RA and Dec is rejected before any stage runs. -/
theorem config_errors_precede_stages_witness :
    ∃ e, runpipeModel demoBadParams noFlags false = Except.error e :=
  config_errors_precede_stages demoBadParams noFlags false
    (Or.inr (Or.inr (Or.inr (by decide))))

/-- C8: the two-exposure WFC3-IR special case.  In Combine-1, when
cosmic-ray rejection is enabled (`drizcr` truthy) and the group consists
of exactly two exposures whose camera is WFC3-IR, `hotpixPostargClean`
runs after the combination; in Combine-2, when `drizcr > 1` (precisely
the CR-rejection flag passed to `secondDrizzle`) and the group is two
WFC3-IR exposures, the cleanup runs and `secondDrizzle` is re-invoked
with cosmic-ray rejection disabled (`driz_cr=False`). -/
theorem twoIR_hotpix_cleanup (camState : Option String) (e0 : Exposure)
    (dc : Int) (ss cl : Bool)
    (h1 : inferCamera e0 = some "WFC3-IR") :
    (dc ≠ 0 → (driz1CRStep camState e0 2 dc).2 = CRCheck.ran true) ∧
    (dc > 1 → driz2Unit false cl "WFC3-IR" ss 2 dc
      = { removed := false, skipped := false,
          calls := [("imedian", true), ("imedian", false)],
          hotpixRun := true, existsAfter := true }) := by
  constructor
  · intro hdc
    simp [driz1CRStep, h1, hdc]
  · intro hdc
    have hd : decide (dc > 1) = true := by simpa using hdc
    simp [driz2Unit, driz2CombineType, hdc, hd]

/-- C8 witness: a concrete two-exposure WFC3-IR group with `drizcr = 2`
gets the hot-pixel cleanup in both combination stages and the Combine-2
re-drizzle with CR rejection off. -/
theorem twoIR_hotpix_cleanup_witness :
    (driz1CRStep none irExp 2 2).2 = CRCheck.ran true ∧
    driz2Unit false false "WFC3-IR" false 2 2
      = { removed := false, skipped := false,
          calls := [("imedian", true), ("imedian", false)],
          hotpixRun := true, existsAfter := true } :=
  ⟨(twoIR_hotpix_cleanup none irExp 2 false false (by decide)).1 (by decide),
   (twoIR_hotpix_cleanup none irExp 2 false false (by decide)).2 (by decide)⟩

/-- C10 counterexample: a Combine-1 group whose first exposure has no
`camera` attribute and a rootname starting with neither `'i'` nor `'j'`
leaves the camera variable unassigned, yet with three exposures and
`drizcr = 1` the hot-pixel guard short-circuits before reading `camera`
and the stage completes without error -- refuting both that the stage
fails for every such group and that Combine-1 is total only under the
claimed precondition. -/
theorem camera_unassigned_no_failure_cex :
    inferCamera badCamExp = none ∧
    driz1CRRun 1 [(badCamExp, 3)] = Except.ok [false] := ⟨rfl, rfl⟩

/-- C10 (amended): camera inference in Combine-1 is partial -- it assigns
nothing exactly when the group's first exposure carries no `camera`
attribute and its rootname starts with neither `'i'` nor `'j'`.  For
such a group, the two-exposure infrared hot-pixel check reads the
`camera` variable only when `drizcr` is truthy and the group has exactly
two exposures, and the unit then fails with a `NameError` exactly when no
earlier group of the stage assigned the loop-persistent variable. -/
theorem camera_inference_gap (e0 : Exposure) (camState : Option String)
    (n : Nat) (dc : Int) :
    (inferCamera e0 = none ↔
      (e0.cameraAttr = none ∧ strStarts e0.rootname "i" = false
        ∧ strStarts e0.rootname "j" = false)) ∧
    (inferCamera e0 = none →
      ((driz1CRStep camState e0 n dc).2 = CRCheck.nameError ↔
        (dc ≠ 0 ∧ n = 2 ∧ camState = none))) := by
  constructor
  · unfold inferCamera
    cases hca : e0.cameraAttr with
    | some c => simp
    | none =>
      by_cases hi : strStarts e0.rootname "i" = true
      · simp only [hi, if_true]
        split
        · simp [hi]
        · split <;> simp [hi]
      · by_cases hj : strStarts e0.rootname "j" = true
        · simp [hi, hj]
        · simp [hi, hj]
  · intro h0
    unfold driz1CRStep
    simp only [h0]
    by_cases hcond : dc ≠ 0 ∧ n = 2
    · cases hcs : camState with
      | none => simp [hcond, hcs]
      | some c => simp [hcond, hcs]
    · simp only [if_neg hcond]
      constructor
      · intro hx
        exact absurd hx (by simp)
      · intro hx
        exact absurd ⟨hx.1, hx.2.1⟩ hcond

/-- C10 witness: the concrete no-camera exposure, in a two-exposure group
with `drizcr = 1` and the camera variable still unassigned, makes the
hot-pixel check fail with a `NameError`. -/
theorem camera_inference_gap_witness :
    inferCamera badCamExp = none ∧
    (driz1CRStep none badCamExp 2 1).2 = CRCheck.nameError :=
  ⟨(camera_inference_gap badCamExp none 2 1).1.mpr (by decide),
   ((camera_inference_gap badCamExp none 2 1).2 (by decide)).mpr
      (by decide)⟩

/-- C5: reference-visit selection is deterministic and follows the
deepest-visit heuristic.  A truthy explicit `refvisit` override is used
verbatim instead of any selection; otherwise, over the exposures
matching the resolved (epoch, filter): a single unique visit id is
chosen directly; no visit id at all raises an error; several visit ids
resolve to a visit whose per-visit exposure count is maximal, with ties
broken by the first such visit in the sorted unique visit-id list
(`np.unique` order combined with `np.argmax` first-maximum semantics). -/
theorem refvisit_selection (l : List Exposure) (ep : Int) (f : String) :
    (∀ v : String, v ≠ "" → selectRefvisit v l ep f = Except.ok v) ∧
    (∀ v : String, refvisitUniq l ep f = [v] →
        selectRefvisit "" l ep f = Except.ok v) ∧
    (refvisitUniq l ep f = [] →
        selectRefvisit "" l ep f
          = Except.error "No visits satisfy the refimage requirements") ∧
    (2 ≤ (refvisitUniq l ep f).length →
      ∃ i, i < (refvisitUniq l ep f).length ∧
        selectRefvisit "" l ep f
          = Except.ok ((refvisitUniq l ep f).getD i "") ∧
        (∀ j, j < (refvisitUniq l ep f).length →
          visitCount l ep f ((refvisitUniq l ep f).getD j "")
            ≤ visitCount l ep f ((refvisitUniq l ep f).getD i "")) ∧
        (∀ j, j < i →
          visitCount l ep f ((refvisitUniq l ep f).getD j "")
            < visitCount l ep f ((refvisitUniq l ep f).getD i ""))) := by
  have hb : (("" : String) != "") = false := by decide
  refine ⟨?_, ?_, ?_, ?_⟩
  · intro v hv
    have hv2 : (v != "") = true := by simpa [bne_iff_ne] using hv
    simp [selectRefvisit, hv2]
  · intro v hv
    simp [selectRefvisit, hb, hv]
  · intro hv
    simp [selectRefvisit, hb, hv]
  · intro h2
    have hnil : (refvisitUniq l ep f).map (visitCount l ep f) ≠ [] := by
      intro hc
      rw [List.map_eq_nil_iff] at hc
      rw [hc] at h2
      simp at h2
    have hspec := argmaxIdx_spec
      ((refvisitUniq l ep f).map (visitCount l ep f)) hnil
    have hlen : ((refvisitUniq l ep f).map (visitCount l ep f)).length
        = (refvisitUniq l ep f).length := by simp
    have hsp1 := hspec.1
    refine ⟨argmaxIdx ((refvisitUniq l ep f).map (visitCount l ep f)),
      by omega, ?_, ?_, ?_⟩
    · have hn1 : ¬((refvisitUniq l ep f).length = 1) := by omega
      have hn0 : ¬((refvisitUniq l ep f).length < 1) := by omega
      simp [selectRefvisit, hb, hn1, hn0]
    · intro j hj
      have hcj := getD_map_nat (visitCount l ep f) (refvisitUniq l ep f) j hj
      have hci := getD_map_nat (visitCount l ep f) (refvisitUniq l ep f)
        (argmaxIdx ((refvisitUniq l ep f).map (visitCount l ep f)))
        (by omega)
      have hle := hspec.2.1 j (by omega)
      rw [hcj, hci] at hle
      exact hle
    · intro j hj
      have hj2 : j < (refvisitUniq l ep f).length := by omega
      have hcj := getD_map_nat (visitCount l ep f) (refvisitUniq l ep f) j hj2
      have hci := getD_map_nat (visitCount l ep f) (refvisitUniq l ep f)
        (argmaxIdx ((refvisitUniq l ep f).map (visitCount l ep f)))
        (by omega)
      have hlt := hspec.2.2 j hj
      rw [hcj, hci] at hlt
      exact hlt

/-- C5 witness: concrete selections -- an explicit override used verbatim;
a single-visit candidate set chosen directly; an empty candidate set
raising; and a two-visit set resolved to the deepest visit. -/
theorem refvisit_selection_witness :
    selectRefvisit "12099.B1" demoExplist 0 "f160w"
      = Except.ok "12099.B1" ∧
    selectRefvisit "" [demoExpA1] 0 "f160w" = Except.ok "12099.A1" ∧
    selectRefvisit "" [] 0 "f160w"
      = Except.error "No visits satisfy the refimage requirements" ∧
    (∃ i, i < (refvisitUniq demoExplist 0 "f160w").length ∧
      selectRefvisit "" demoExplist 0 "f160w"
        = Except.ok ((refvisitUniq demoExplist 0 "f160w").getD i "") ∧
      (∀ j, j < (refvisitUniq demoExplist 0 "f160w").length →
        visitCount demoExplist 0 "f160w"
            ((refvisitUniq demoExplist 0 "f160w").getD j "")
          ≤ visitCount demoExplist 0 "f160w"
            ((refvisitUniq demoExplist 0 "f160w").getD i "")) ∧
      (∀ j, j < i →
        visitCount demoExplist 0 "f160w"
            ((refvisitUniq demoExplist 0 "f160w").getD j "")
          < visitCount demoExplist 0 "f160w"
            ((refvisitUniq demoExplist 0 "f160w").getD i ""))) :=
  ⟨(refvisit_selection demoExplist 0 "f160w").1 "12099.B1" (by decide),
   (refvisit_selection [demoExpA1] 0 "f160w").2.1 "12099.A1" (by decide),
   (refvisit_selection [] 0 "f160w").2.2.1 (by decide),
   (refvisit_selection demoExplist 0 "f160w").2.2.2 (by decide)⟩

end Sndrizpipe
